import Mathlib

/-
Verification of the transaction-execution-info accounting layer
(core/lib/types/src/tx/tx_execution_info.rs).

Machine-integer conventions of the embedding: Rust unsigned integers are
modelled as `Nat`.  Where a claim is about overflow behaviour, the unchecked
Rust `+` of a release build is modelled explicitly as addition reduced
modulo the width of the field type (`% 2^16` for `u16`, `% 2^32` for `u32`,
`% 2^64` for `usize`); a value of a Rust unsigned type is a `Nat` below that
bound (the `Valid` predicates).  The size computations are modelled the same
way: every `usize` addition and multiplication they perform is reduced
modulo `2^64`, operation by operation, as the release build computes it.
-/

namespace TxExecInfo

/-- Modelled from the spec: width bound of the 64-bit `usize` type
(2 to the 64th, written as a literal). -/
def USIZE_BOUND : Nat := 18446744073709551616

/-- Modelled from the spec: width bound of `u32` (2 to the 32nd). -/
def U32_BOUND : Nat := 4294967296

/-- Modelled from the spec: width bound of `u16` (2 to the 16th). -/
def U16_BOUND : Nat := 65536

/-- Modelled from the spec: the size constant `PER_DERIVED_KEY_BYTES`
(source name `BYTES_PER_DERIVED_KEY`, imported from `crate::writes`), the
number of bytes of a full derived storage key; the spec fixes it at 32. -/
def BYTES_PER_DERIVED_KEY : Nat := 32

/-- Modelled from the spec: the size constant `PER_ENUMERATION_INDEX_BYTES`
(source name `BYTES_PER_ENUMERATION_INDEX`, imported from `crate::writes`),
the number of bytes of a compact enumeration index; the spec fixes it at 8. -/
def BYTES_PER_ENUMERATION_INDEX : Nat := 8

/-- Modelled from the spec: `InitialStorageWrite::SERIALIZED_SIZE`, the
fixed full-record size `INITIAL_WRITE_RECORD_SIZE` of the legacy encoding;
the spec fixes it at 64. -/
def InitialStorageWrite.SERIALIZED_SIZE : Nat := 64

/-- Modelled from the spec: `RepeatedStorageWrite::SERIALIZED_SIZE`, the
fixed full-record size `REPEATED_WRITE_RECORD_SIZE` of the legacy encoding;
the spec fixes it at 40. -/
def RepeatedStorageWrite.SERIALIZED_SIZE : Nat := 40

/-- Modelled from the spec: `L2ToL1Log::SERIALIZED_SIZE`, the record size
`L2_TO_L1_LOG_RECORD_SIZE` of one fixed-width cross-layer log entry; the
spec fixes it at 88. -/
def L2ToL1Log.SERIALIZED_SIZE : Nat := 88

/-- Modelled from the spec: the external protocol-version registry supplies
an ordered enumeration of protocol versions; a version is represented by its
numeric index with the order of `Nat`. -/
abbrev ProtocolVersionId : Type := Nat

/-- Modelled from the spec: the cutover variant `Version17` of the ordered
protocol-version enumeration, at index 17. -/
def ProtocolVersionId.Version17 : ProtocolVersionId := 17

/-- Modelled from the spec: the raw per-transaction metrics record
`TransactionExecutionMetrics` (from `crate::fee`, outside this file),
holding the fields this core reads.  All counters are modelled as `Nat`. -/
structure TransactionExecutionMetrics where
  initial_storage_writes : Nat
  repeated_storage_writes : Nat
  total_updated_values_size : Nat
  gas_used : Nat
  published_bytecode_bytes : Nat
  l2_l1_long_messages : Nat
  l2_l1_logs : Nat
  contracts_used : Nat
  contracts_deployed : Nat
  vm_events : Nat
  storage_logs : Nat
  total_log_queries : Nat
  cycles_used : Nat
  computational_gas_used : Nat
  deriving DecidableEq, Repr

/-- The two-valued execution status `TxExecutionStatus`. -/
inductive TxExecutionStatus where
  | Success
  | Failure
  deriving DecidableEq, Repr

/-- Embedding of `TxExecutionStatus::from_has_failed`. -/
def TxExecutionStatus.from_has_failed (has_failed : Bool) : TxExecutionStatus :=
  if has_failed then .Failure else .Success

/-- Embedding of the struct `DeduplicatedWritesMetrics`
(three `usize` counters, modelled as `Nat`). -/
structure DeduplicatedWritesMetrics where
  initial_storage_writes : Nat
  repeated_storage_writes : Nat
  total_updated_values_size : Nat
  deriving DecidableEq, Repr

/-- Embedding of `DeduplicatedWritesMetrics::from_tx_metrics`. -/
def DeduplicatedWritesMetrics.from_tx_metrics
    (tx_metrics : TransactionExecutionMetrics) : DeduplicatedWritesMetrics :=
  { initial_storage_writes := tx_metrics.initial_storage_writes
    repeated_storage_writes := tx_metrics.repeated_storage_writes
    total_updated_values_size := tx_metrics.total_updated_values_size }

/-- A `Nat`-modelled `DeduplicatedWritesMetrics` record corresponds to a
value of the Rust struct exactly when every `usize` field is below `2^64`. -/
abbrev DeduplicatedWritesMetrics.Valid (m : DeduplicatedWritesMetrics) : Prop :=
  m.initial_storage_writes < USIZE_BOUND
    ∧ m.repeated_storage_writes < USIZE_BOUND
    ∧ m.total_updated_values_size < USIZE_BOUND

/-- Embedding of `DeduplicatedWritesMetrics::size`: the source matches on the
protocol version, the first arm guarded by `version >= Version17`, the
default arm taking every lower version.  Each unchecked `usize` `*` and `+`
of the release build is reduced modulo `2^64`. -/
def DeduplicatedWritesMetrics.size (self : DeduplicatedWritesMetrics)
    (protocol_version : ProtocolVersionId) : Nat :=
  if ProtocolVersionId.Version17 ≤ protocol_version then
    ((self.total_updated_values_size
        + (BYTES_PER_DERIVED_KEY * self.initial_storage_writes) % USIZE_BOUND)
          % USIZE_BOUND
      + (BYTES_PER_ENUMERATION_INDEX * self.repeated_storage_writes) % USIZE_BOUND)
        % USIZE_BOUND
  else
    ((self.initial_storage_writes * InitialStorageWrite.SERIALIZED_SIZE) % USIZE_BOUND
      + (self.repeated_storage_writes * RepeatedStorageWrite.SERIALIZED_SIZE)
          % USIZE_BOUND)
        % USIZE_BOUND

/-- Embedding of the struct `ExecutionMetrics`.  In the source,
`contracts_deployed` is a `u16`, `cycles_used` and `computational_gas_used`
are `u32`, and the remaining eight counters are `usize`; all are modelled as
`Nat`, with the width bounds recorded by `ExecutionMetrics.Valid`. -/
@[ext]
structure ExecutionMetrics where
  gas_used : Nat
  published_bytecode_bytes : Nat
  l2_l1_long_messages : Nat
  l2_l1_logs : Nat
  contracts_used : Nat
  contracts_deployed : Nat
  vm_events : Nat
  storage_logs : Nat
  total_log_queries : Nat
  cycles_used : Nat
  computational_gas_used : Nat
  deriving DecidableEq, Repr

/-- A `Nat`-modelled `ExecutionMetrics` record corresponds to a value of the
Rust struct exactly when every field is below the bound of its field type. -/
abbrev ExecutionMetrics.Valid (m : ExecutionMetrics) : Prop :=
  m.gas_used < USIZE_BOUND
    ∧ m.published_bytecode_bytes < USIZE_BOUND
    ∧ m.l2_l1_long_messages < USIZE_BOUND
    ∧ m.l2_l1_logs < USIZE_BOUND
    ∧ m.contracts_used < USIZE_BOUND
    ∧ m.contracts_deployed < U16_BOUND
    ∧ m.vm_events < USIZE_BOUND
    ∧ m.storage_logs < USIZE_BOUND
    ∧ m.total_log_queries < USIZE_BOUND
    ∧ m.cycles_used < U32_BOUND
    ∧ m.computational_gas_used < U32_BOUND

/-- Embedding of `ExecutionMetrics::from_tx_metrics`. -/
def ExecutionMetrics.from_tx_metrics
    (tx_metrics : TransactionExecutionMetrics) : ExecutionMetrics :=
  { published_bytecode_bytes := tx_metrics.published_bytecode_bytes
    l2_l1_long_messages := tx_metrics.l2_l1_long_messages
    l2_l1_logs := tx_metrics.l2_l1_logs
    contracts_deployed := tx_metrics.contracts_deployed
    contracts_used := tx_metrics.contracts_used
    gas_used := tx_metrics.gas_used
    storage_logs := tx_metrics.storage_logs
    vm_events := tx_metrics.vm_events
    total_log_queries := tx_metrics.total_log_queries
    cycles_used := tx_metrics.cycles_used
    computational_gas_used := tx_metrics.computational_gas_used }

/-- Embedding of `ExecutionMetrics::size`: each unchecked `usize` `*` and
`+` of the release build is reduced modulo `2^64`. -/
def ExecutionMetrics.size (self : ExecutionMetrics) : Nat :=
  (((self.l2_l1_logs * L2ToL1Log.SERIALIZED_SIZE) % USIZE_BOUND
      + self.l2_l1_long_messages) % USIZE_BOUND
    + self.published_bytecode_bytes) % USIZE_BOUND

/-- Embedding of `impl Add for ExecutionMetrics`: field-wise unchecked `+`
of the Rust release build, i.e. addition reduced modulo the width bound of
each field type. -/
def ExecutionMetrics.add (self other : ExecutionMetrics) : ExecutionMetrics :=
  { published_bytecode_bytes :=
      (self.published_bytecode_bytes + other.published_bytecode_bytes) % USIZE_BOUND
    contracts_deployed :=
      (self.contracts_deployed + other.contracts_deployed) % U16_BOUND
    contracts_used := (self.contracts_used + other.contracts_used) % USIZE_BOUND
    l2_l1_long_messages :=
      (self.l2_l1_long_messages + other.l2_l1_long_messages) % USIZE_BOUND
    l2_l1_logs := (self.l2_l1_logs + other.l2_l1_logs) % USIZE_BOUND
    gas_used := (self.gas_used + other.gas_used) % USIZE_BOUND
    vm_events := (self.vm_events + other.vm_events) % USIZE_BOUND
    storage_logs := (self.storage_logs + other.storage_logs) % USIZE_BOUND
    total_log_queries :=
      (self.total_log_queries + other.total_log_queries) % USIZE_BOUND
    cycles_used := (self.cycles_used + other.cycles_used) % U32_BOUND
    computational_gas_used :=
      (self.computational_gas_used + other.computational_gas_used) % U32_BOUND }

/-- Embedding of `impl AddAssign for ExecutionMetrics`: the source body is
the single statement writing `*self + other` back into `self`, so the
updated value of the receiver is exactly the binary sum. -/
def ExecutionMetrics.add_assign (self other : ExecutionMetrics) : ExecutionMetrics :=
  self.add other

/-- Embedding of the derived `Default` value of `ExecutionMetrics`: every
field at 0. -/
def ExecutionMetrics.default : ExecutionMetrics :=
  { gas_used := 0
    published_bytecode_bytes := 0
    l2_l1_long_messages := 0
    l2_l1_logs := 0
    contracts_used := 0
    contracts_deployed := 0
    vm_events := 0
    storage_logs := 0
    total_log_queries := 0
    cycles_used := 0
    computational_gas_used := 0 }

/-- C7: `from_has_failed` is a pure total function on booleans, mapping
`true` to `Failure` and `false` to `Success`, and for every boolean input
the result is one of exactly these two variants. -/
theorem from_has_failed_spec :
    TxExecutionStatus.from_has_failed true = TxExecutionStatus.Failure
    ∧ TxExecutionStatus.from_has_failed false = TxExecutionStatus.Success
    ∧ ∀ b : Bool,
        TxExecutionStatus.from_has_failed b = TxExecutionStatus.Failure
        ∨ TxExecutionStatus.from_has_failed b = TxExecutionStatus.Success := by
  refine ⟨rfl, rfl, ?_⟩
  intro b
  cases b
  · exact Or.inr rfl
  · exact Or.inl rfl

/-- C5: both projections copy each of their named fields verbatim from the
raw record, with no transformation, clamping or recomputation, and (being
total Lean functions) cannot fail. -/
theorem from_tx_metrics_verbatim (raw : TransactionExecutionMetrics) :
    (ExecutionMetrics.from_tx_metrics raw).gas_used = raw.gas_used
    ∧ (ExecutionMetrics.from_tx_metrics raw).published_bytecode_bytes
        = raw.published_bytecode_bytes
    ∧ (ExecutionMetrics.from_tx_metrics raw).l2_l1_long_messages
        = raw.l2_l1_long_messages
    ∧ (ExecutionMetrics.from_tx_metrics raw).l2_l1_logs = raw.l2_l1_logs
    ∧ (ExecutionMetrics.from_tx_metrics raw).contracts_used = raw.contracts_used
    ∧ (ExecutionMetrics.from_tx_metrics raw).contracts_deployed
        = raw.contracts_deployed
    ∧ (ExecutionMetrics.from_tx_metrics raw).vm_events = raw.vm_events
    ∧ (ExecutionMetrics.from_tx_metrics raw).storage_logs = raw.storage_logs
    ∧ (ExecutionMetrics.from_tx_metrics raw).total_log_queries
        = raw.total_log_queries
    ∧ (ExecutionMetrics.from_tx_metrics raw).cycles_used = raw.cycles_used
    ∧ (ExecutionMetrics.from_tx_metrics raw).computational_gas_used
        = raw.computational_gas_used
    ∧ (DeduplicatedWritesMetrics.from_tx_metrics raw).initial_storage_writes
        = raw.initial_storage_writes
    ∧ (DeduplicatedWritesMetrics.from_tx_metrics raw).repeated_storage_writes
        = raw.repeated_storage_writes
    ∧ (DeduplicatedWritesMetrics.from_tx_metrics raw).total_updated_values_size
        = raw.total_updated_values_size := by
  refine ⟨rfl, rfl, rfl, rfl, rfl, rfl, rfl, rfl, rfl, rfl, rfl, rfl, rfl, rfl⟩

/-- C8: both projections are deterministic: two applications to the same raw
record yield identical values (pure functions, no hidden state). -/
theorem from_tx_metrics_deterministic (raw : TransactionExecutionMetrics) :
    ExecutionMetrics.from_tx_metrics raw = ExecutionMetrics.from_tx_metrics raw
    ∧ DeduplicatedWritesMetrics.from_tx_metrics raw
        = DeduplicatedWritesMetrics.from_tx_metrics raw :=
  ⟨rfl, rfl⟩

/-- C9: the in-place merge agrees with the binary one: after `a += b` the
receiver holds exactly the value `a + b` of the binary addition. -/
theorem add_assign_agrees_with_add (a b : ExecutionMetrics) :
    a.add_assign b = a.add b :=
  rfl

/-- A valid `ExecutionMetrics` value whose size formula overflows `usize`:
`l2_l1_logs` holds 2 to the 60th, so the product with the record size 88 is
above `2^64`. -/
def hugeLogs : ExecutionMetrics :=
  { ExecutionMetrics.default with l2_l1_logs := 1152921504606846976 }

/-- C4 counterexample: `ExecutionMetrics::size` is not the exact formula
`l2_l1_logs * 88 + l2_l1_long_messages + published_bytecode_bytes` on every
value of the struct: at the valid value with `l2_l1_logs` equal to 2 to the
60th, the release build wraps the product `88 * 2^60` modulo `2^64` and
returns `2^63`, not the exact formula value `88 * 2^60`. -/
theorem execution_metrics_size_formula_cex :
    ExecutionMetrics.Valid hugeLogs
    ∧ hugeLogs.size = 9223372036854775808
    ∧ hugeLogs.l2_l1_logs * L2ToL1Log.SERIALIZED_SIZE
        + hugeLogs.l2_l1_long_messages + hugeLogs.published_bytecode_bytes
        = 101457092405402533888
    ∧ hugeLogs.size
        ≠ hugeLogs.l2_l1_logs * L2ToL1Log.SERIALIZED_SIZE
            + hugeLogs.l2_l1_long_messages + hugeLogs.published_bytecode_bytes := by
  decide

/-- C4 as amended: `ExecutionMetrics::size` equals
`l2_l1_logs * L2_TO_L1_LOG_RECORD_SIZE + l2_l1_long_messages +
published_bytecode_bytes` evaluated in wrapping `usize` arithmetic, i.e.
reduced modulo `2^64`, with a log record size of 88; in particular at
`l2_l1_logs = 4`, `l2_l1_long_messages = 10`,
`published_bytecode_bytes = 500` it is exactly 862. -/
theorem execution_metrics_size_formula (m : ExecutionMetrics) :
    m.size = (m.l2_l1_logs * L2ToL1Log.SERIALIZED_SIZE
        + m.l2_l1_long_messages + m.published_bytecode_bytes) % USIZE_BOUND
    ∧ L2ToL1Log.SERIALIZED_SIZE = 88
    ∧ ({ ExecutionMetrics.default with
          l2_l1_logs := 4
          l2_l1_long_messages := 10
          published_bytecode_bytes := 500 } : ExecutionMetrics).size = 862 := by
  refine ⟨?_, rfl, by decide⟩
  simp [ExecutionMetrics.size, Nat.mod_add_mod, Nat.add_mod_mod]

/-- C1 counterexample: `DeduplicatedWritesMetrics::size` is not the exact
formula `total_updated_values_size + 32 * initial_storage_writes +
8 * repeated_storage_writes` at every value and every high version: at the
valid record with `initial_storage_writes` equal to 2 to the 63rd (and the
other fields 0), the release build wraps the product `32 * 2^63` modulo
`2^64` and returns 0 at version 17, not the exact formula value `2^68`. -/
theorem dedup_writes_size_formula_cex :
    DeduplicatedWritesMetrics.Valid ⟨9223372036854775808, 0, 0⟩
    ∧ (⟨9223372036854775808, 0, 0⟩ : DeduplicatedWritesMetrics).size
        ProtocolVersionId.Version17 = 0
    ∧ (⟨9223372036854775808, 0, 0⟩ : DeduplicatedWritesMetrics).total_updated_values_size
        + BYTES_PER_DERIVED_KEY
            * (⟨9223372036854775808, 0, 0⟩ : DeduplicatedWritesMetrics).initial_storage_writes
        + BYTES_PER_ENUMERATION_INDEX
            * (⟨9223372036854775808, 0, 0⟩ : DeduplicatedWritesMetrics).repeated_storage_writes
        = 295147905179352825856
    ∧ (0 : Nat) ≠ 295147905179352825856 := by
  decide

/-- C1 as amended: `DeduplicatedWritesMetrics::size` is computed by exactly
one of two formulas selected strictly by `version >= Version17`, each
evaluated in wrapping `usize` arithmetic (reduced modulo `2^64`): at or
above the cutover, `total_updated_values_size + PER_DERIVED_KEY_BYTES *
initial_storage_writes + PER_ENUMERATION_INDEX_BYTES *
repeated_storage_writes` (constants 32 and 8); strictly below,
`initial_storage_writes * INITIAL_WRITE_RECORD_SIZE +
repeated_storage_writes * REPEATED_WRITE_RECORD_SIZE` (constants 64 and 40).
For `initial = 2`, `repeated = 3`, `total_updated_values_size = 100` no
reduction bites and this gives exactly 188 at a version at or above the
cutover and exactly 248 below it. -/
theorem dedup_writes_size_formula (m : DeduplicatedWritesMetrics)
    (v : ProtocolVersionId) :
    (ProtocolVersionId.Version17 ≤ v →
        m.size v = (m.total_updated_values_size
          + BYTES_PER_DERIVED_KEY * m.initial_storage_writes
          + BYTES_PER_ENUMERATION_INDEX * m.repeated_storage_writes) % USIZE_BOUND)
    ∧ (v < ProtocolVersionId.Version17 →
        m.size v = (m.initial_storage_writes * InitialStorageWrite.SERIALIZED_SIZE
          + m.repeated_storage_writes * RepeatedStorageWrite.SERIALIZED_SIZE)
            % USIZE_BOUND)
    ∧ BYTES_PER_DERIVED_KEY = 32
    ∧ BYTES_PER_ENUMERATION_INDEX = 8
    ∧ InitialStorageWrite.SERIALIZED_SIZE = 64
    ∧ RepeatedStorageWrite.SERIALIZED_SIZE = 40
    ∧ (⟨2, 3, 100⟩ : DeduplicatedWritesMetrics).size ProtocolVersionId.Version17 = 188
    ∧ (⟨2, 3, 100⟩ : DeduplicatedWritesMetrics).size 16 = 248 := by
  refine ⟨?_, ?_, rfl, rfl, rfl, rfl, by decide, by decide⟩
  · intro h
    simp [DeduplicatedWritesMetrics.size, h, Nat.mod_add_mod, Nat.add_mod_mod]
  · intro h
    simp [DeduplicatedWritesMetrics.size, Nat.not_le.mpr h, Nat.mod_add_mod,
      Nat.add_mod_mod]

/-- Witness for C1: the high-version arm at the concrete record
`(2, 3, 100)` and version 17. -/
theorem dedup_writes_size_formula_witness :
    ProtocolVersionId.Version17 ≤ (17 : ProtocolVersionId)
    ∧ (⟨2, 3, 100⟩ : DeduplicatedWritesMetrics).size 17
        = (100 + BYTES_PER_DERIVED_KEY * 2 + BYTES_PER_ENUMERATION_INDEX * 3)
            % USIZE_BOUND :=
  ⟨by decide, (dedup_writes_size_formula ⟨2, 3, 100⟩ 17).1 (by decide)⟩

/-- C10: `DeduplicatedWritesMetrics::size` depends on the protocol version
only through the predicate `version >= Version17`: two versions on the same
side of the cutover give the same size. -/
theorem dedup_writes_size_version_oblivious (m : DeduplicatedWritesMetrics)
    (v1 v2 : ProtocolVersionId)
    (h : ProtocolVersionId.Version17 ≤ v1 ↔ ProtocolVersionId.Version17 ≤ v2) :
    m.size v1 = m.size v2 := by
  unfold DeduplicatedWritesMetrics.size
  by_cases h1 : ProtocolVersionId.Version17 ≤ v1
  · rw [if_pos h1, if_pos (h.mp h1)]
  · rw [if_neg h1, if_neg (fun h2 => h1 (h.mpr h2))]

/-- Witness for C10: versions 18 and 99 are both at or above the cutover, so
the size of the record `(1, 2, 3)` agrees at the two versions. -/
theorem dedup_writes_size_version_oblivious_witness :
    ((ProtocolVersionId.Version17 ≤ (18 : ProtocolVersionId))
        ↔ (ProtocolVersionId.Version17 ≤ (99 : ProtocolVersionId)))
    ∧ (⟨1, 2, 3⟩ : DeduplicatedWritesMetrics).size 18
        = (⟨1, 2, 3⟩ : DeduplicatedWritesMetrics).size 99 :=
  ⟨by decide, dedup_writes_size_version_oblivious ⟨1, 2, 3⟩ 18 99 (by decide)⟩

/-- C3: addition of `ExecutionMetrics` is associative and commutative,
field-wise over all eleven counters. -/
theorem execution_metrics_add_assoc_comm (a b c : ExecutionMetrics) :
    (a.add b).add c = a.add (b.add c) ∧ a.add b = b.add a := by
  constructor
  · ext <;>
      simp [ExecutionMetrics.add, Nat.mod_add_mod, Nat.add_mod_mod, Nat.add_assoc]
  · ext <;> simp [ExecutionMetrics.add, Nat.add_comm]

/-- C6: the all-zero `ExecutionMetrics` value (the derived `Default`) is an
additive identity on both sides, for every value of the Rust struct. -/
theorem execution_metrics_add_default (a : ExecutionMetrics) (h : a.Valid) :
    a.add ExecutionMetrics.default = a
    ∧ ExecutionMetrics.default.add a = a := by
  obtain ⟨h1, h2, h3, h4, h5, h6, h7, h8, h9, h10, h11⟩ := h
  refine ⟨?_, ?_⟩ <;> ext <;>
    simp [ExecutionMetrics.add, ExecutionMetrics.default,
      Nat.mod_eq_of_lt h1, Nat.mod_eq_of_lt h2, Nat.mod_eq_of_lt h3,
      Nat.mod_eq_of_lt h4, Nat.mod_eq_of_lt h5, Nat.mod_eq_of_lt h6,
      Nat.mod_eq_of_lt h7, Nat.mod_eq_of_lt h8, Nat.mod_eq_of_lt h9,
      Nat.mod_eq_of_lt h10, Nat.mod_eq_of_lt h11]

/-- Witness for C6: the all-zero value is itself a value of the struct and
absorbs itself. -/
theorem execution_metrics_add_default_witness :
    ExecutionMetrics.Valid ExecutionMetrics.default
    ∧ ExecutionMetrics.default.add ExecutionMetrics.default
        = ExecutionMetrics.default :=
  ⟨by decide,
    (execution_metrics_add_default ExecutionMetrics.default (by decide)).1⟩

/-- A pair of valid `ExecutionMetrics` values whose `contracts_deployed`
(`u16`) sum does not fit in the field type. -/
def overflowA : ExecutionMetrics :=
  { ExecutionMetrics.default with contracts_deployed := 65535 }

/-- The second value of the overflowing pair. -/
def overflowB : ExecutionMetrics :=
  { ExecutionMetrics.default with contracts_deployed := 1 }

/-- C2 counterexample: the unchecked `+` of the source wraps silently.  At
two valid values whose `u16` field `contracts_deployed` holds 65535 and 1,
the sum's field holds 0, not the exact sum 65536, and no error is
surfaced (`add` is total and returns a plain value). -/
theorem execution_metrics_add_wraps :
    ExecutionMetrics.Valid overflowA
    ∧ ExecutionMetrics.Valid overflowB
    ∧ (overflowA.add overflowB).contracts_deployed = 0
    ∧ overflowA.contracts_deployed + overflowB.contracts_deployed = 65536
    ∧ (overflowA.add overflowB).contracts_deployed
        ≠ overflowA.contracts_deployed + overflowB.contracts_deployed := by
  decide

/-- C2 as amended: addition is field-wise modular in the width of each field
type and wraps silently on overflow; it agrees with the exact field-wise
`Nat` sum precisely when every per-field sum is below the bound of its field
type, which is the hypothesis under which no wraparound occurs. -/
theorem execution_metrics_add_exact (a b : ExecutionMetrics)
    (h1 : a.gas_used + b.gas_used < USIZE_BOUND)
    (h2 : a.published_bytecode_bytes + b.published_bytecode_bytes < USIZE_BOUND)
    (h3 : a.l2_l1_long_messages + b.l2_l1_long_messages < USIZE_BOUND)
    (h4 : a.l2_l1_logs + b.l2_l1_logs < USIZE_BOUND)
    (h5 : a.contracts_used + b.contracts_used < USIZE_BOUND)
    (h6 : a.contracts_deployed + b.contracts_deployed < U16_BOUND)
    (h7 : a.vm_events + b.vm_events < USIZE_BOUND)
    (h8 : a.storage_logs + b.storage_logs < USIZE_BOUND)
    (h9 : a.total_log_queries + b.total_log_queries < USIZE_BOUND)
    (h10 : a.cycles_used + b.cycles_used < U32_BOUND)
    (h11 : a.computational_gas_used + b.computational_gas_used < U32_BOUND) :
    a.add b =
      { gas_used := a.gas_used + b.gas_used
        published_bytecode_bytes :=
          a.published_bytecode_bytes + b.published_bytecode_bytes
        l2_l1_long_messages := a.l2_l1_long_messages + b.l2_l1_long_messages
        l2_l1_logs := a.l2_l1_logs + b.l2_l1_logs
        contracts_used := a.contracts_used + b.contracts_used
        contracts_deployed := a.contracts_deployed + b.contracts_deployed
        vm_events := a.vm_events + b.vm_events
        storage_logs := a.storage_logs + b.storage_logs
        total_log_queries := a.total_log_queries + b.total_log_queries
        cycles_used := a.cycles_used + b.cycles_used
        computational_gas_used :=
          a.computational_gas_used + b.computational_gas_used } := by
  ext <;>
    simp [ExecutionMetrics.add,
      Nat.mod_eq_of_lt h1, Nat.mod_eq_of_lt h2, Nat.mod_eq_of_lt h3,
      Nat.mod_eq_of_lt h4, Nat.mod_eq_of_lt h5, Nat.mod_eq_of_lt h6,
      Nat.mod_eq_of_lt h7, Nat.mod_eq_of_lt h8, Nat.mod_eq_of_lt h9,
      Nat.mod_eq_of_lt h10, Nat.mod_eq_of_lt h11]

/-- A small valid `ExecutionMetrics` value used to witness exact addition. -/
def smallA : ExecutionMetrics :=
  { ExecutionMetrics.default with gas_used := 5, contracts_deployed := 7 }

/-- The second small value of the exact-addition witness. -/
def smallB : ExecutionMetrics :=
  { ExecutionMetrics.default with gas_used := 11, contracts_deployed := 13 }

/-- Witness for the amended C2: at two small values no per-field sum
overflows and the addition is the exact field-wise sum. -/
theorem execution_metrics_add_exact_witness :
    smallA.gas_used + smallB.gas_used < USIZE_BOUND
    ∧ smallA.contracts_deployed + smallB.contracts_deployed < U16_BOUND
    ∧ smallA.add smallB =
        { gas_used := smallA.gas_used + smallB.gas_used
          published_bytecode_bytes :=
            smallA.published_bytecode_bytes + smallB.published_bytecode_bytes
          l2_l1_long_messages :=
            smallA.l2_l1_long_messages + smallB.l2_l1_long_messages
          l2_l1_logs := smallA.l2_l1_logs + smallB.l2_l1_logs
          contracts_used := smallA.contracts_used + smallB.contracts_used
          contracts_deployed :=
            smallA.contracts_deployed + smallB.contracts_deployed
          vm_events := smallA.vm_events + smallB.vm_events
          storage_logs := smallA.storage_logs + smallB.storage_logs
          total_log_queries :=
            smallA.total_log_queries + smallB.total_log_queries
          cycles_used := smallA.cycles_used + smallB.cycles_used
          computational_gas_used :=
            smallA.computational_gas_used + smallB.computational_gas_used } :=
  ⟨by decide, by decide,
    execution_metrics_add_exact smallA smallB (by decide) (by decide)
      (by decide) (by decide) (by decide) (by decide) (by decide) (by decide)
      (by decide) (by decide) (by decide)⟩

end TxExecInfo
